import Mathlib

/-
  Verification of the Chem-to-SMILES command-line tool (src/chem2smiles.py).

  The program is embedded shallowly: every call into an external collaborator
  (the RDKit validator/renderer, the PubChemPy lookup service, pip, the file
  system, stdin) is a field of an `Env` record supplied by the caller, and a
  run of the program is a pure function of that environment.  A call that can
  raise a Python exception is modelled with `Except String`, where the error
  carries the exception message.  Observable actions (prints to stdout,
  network lookups, the pip install, render calls, opening a file for writing)
  are recorded in an event trace.
-/

namespace Chem2Smiles

deriving instance DecidableEq for Except

/-- Observable actions of a run, in order of occurrence. -/
inductive Event
  | print (msg : String)
  | lookup (name : String)
  | install
  | render (smiles : String) (w h : Nat)
  | openWrite (path : String)
  deriving Repr, DecidableEq

/-- A Python exception escaping a function.  `except Exception` clauses catch
only `err`; `except KeyboardInterrupt` catches only `keyboardInterrupt`. -/
inductive Exc
  | keyboardInterrupt
  | err (msg : String)
  deriving Repr, DecidableEq

/-- The external collaborators of src/chem2smiles.py, as oracles.
`molFromSmiles` is `Chem.MolFromSmiles`: `.ok true` means a molecule object is
returned (the string is valid notation), `.ok false` means Python `None`,
`.error e` means the call raised with message `e`.  `pubchempyInstalled` says
whether `from pubchempy import get_compounds` succeeds; `getCompounds n` is
the list of `canonical_smiles` strings of the candidate compounds returned by
`get_compounds(n, "name")`.  `pipInstall` models
`subprocess.check_call([sys.executable, "-m", "pip", "install", "pubchempy"])`,
`installedAfter` whether the re-import succeeds afterwards (with message
`importErr` when it does not), and `getCompoundsRetry` the lookup made after
the remedial install.  `molToImage` is `Draw.MolToImage` at a given size,
`imgSave` is `img.save`, `readFile p` the lines obtained by iterating over
`open(p)` (already without their newline terminators), `writable p` whether
`open(p, "w")` succeeds, and `openErr p` the IOError message when it does
not. -/
structure Env where
  molFromSmiles : String → Except String Bool
  pubchempyInstalled : Bool
  getCompounds : String → Except String (List String)
  pipInstall : Except String Unit
  installedAfter : Bool
  importErr : String
  getCompoundsRetry : String → Except String (List String)
  molToImage : String → Nat → Nat → Except String Unit
  imgSave : String → Except String Unit
  readFile : String → Except String (List String)
  writable : String → Bool
  openErr : String → String

/-- The text file system: path to current content, `none` = no such file. -/
abbrev Fs := String → Option String

/-- `open(p, "w")` followed by writing `c`: truncate-and-write semantics. -/
def writeFile (fs : Fs) (p c : String) : Fs :=
  fun q => if q = p then some c else fs q

/-- Python `str.strip()` over the core whitespace characters (space, tab,
carriage return, newline), written over the character list so that it
evaluates by kernel reduction. -/
def pyStrip (s : String) : String :=
  ⟨((s.data.dropWhile Char.isWhitespace).reverse.dropWhile Char.isWhitespace).reverse⟩

/-- Python truthiness of an optional string: `None` and `""` are falsy. -/
def truthyOpt : Option String → Bool
  | none => false
  | some s => !(s == "")

/-- Number of events of a given shape in a trace. -/
def countEv (p : Event → Bool) (evs : List Event) : Nat :=
  (evs.filter p).length

def isLookup : Event → Bool
  | .lookup _ => true
  | _ => false

def isInstall : Event → Bool
  | .install => true
  | _ => false

def isRender : Event → Bool
  | .render _ _ _ => true
  | _ => false

def isOpenWrite : Event → Bool
  | .openWrite _ => true
  | _ => false

/-- A "not found"-class diagnostic: the print the Resolver emits when the
lookup service yields zero candidates (`No compounds found for '...' in
PubChem`). -/
def isNotFoundDiag : Event → Bool
  | .print m => "No compounds found".data.isPrefixOf m.data
  | _ => false

/-- `name_to_smiles` of src/chem2smiles.py, returning the resolved value
(`none` = Python `None`) together with the trace of observable actions.  The
outer `try`/`except Exception` and both inner handlers are reflected in the
branch structure: no branch lets an exception escape, so the result needs no
exception component. -/
def name_to_smiles (env : Env) (chemical_name : String) :
    Option String × List Event :=
  match env.molFromSmiles chemical_name with
  | .error e =>
      -- outer `except Exception`
      (none, [.print ("Error processing " ++ chemical_name ++ ": " ++ e)])
  | .ok true => (some chemical_name, [])
  | .ok false =>
      if env.pubchempyInstalled then
        match env.getCompounds chemical_name with
        | .ok (c :: _) => (some c, [.lookup chemical_name])
        | .ok [] =>
            (none, [.lookup chemical_name,
              .print ("No compounds found for \x27" ++ chemical_name ++
                "\x27 in PubChem")])
        | .error e =>
            (none, [.lookup chemical_name,
              .print ("PubChem lookup failed: " ++ e)])
      else
        -- `except ImportError` branch: remedial install, then one retry
        let pre : List Event :=
          [.print "PubChemPy not installed. Installing it with: pip install pubchempy",
           .install]
        match env.pipInstall with
        | .error e =>
            (none, pre ++ [.print ("Failed to install or use PubChemPy: " ++ e)])
        | .ok _ =>
            if env.installedAfter then
              match env.getCompoundsRetry chemical_name with
              | .ok (c :: _) => (some c, pre ++ [.lookup chemical_name])
              | .ok [] => (none, pre ++ [.lookup chemical_name])
              | .error e =>
                  (none, pre ++ [.lookup chemical_name,
                    .print ("Failed to install or use PubChemPy: " ++ e)])
            else
              (none, pre ++
                [.print ("Failed to install or use PubChemPy: " ++ env.importErr)])

/-- The body of `save_molecule_image` before its `except Exception` handler:
trace so far, plus the exception message if one of the external calls
raised. -/
def save_molecule_image_body (env : Env) (smiles output_file : String) :
    List Event × Option String :=
  match env.molFromSmiles smiles with
  | .error e => ([], some e)
  | .ok false => ([.print "Could not generate molecular structure image"], none)
  | .ok true =>
      match env.molToImage smiles 400 400 with
      | .error e => ([.render smiles 400 400], some e)
      | .ok _ =>
          match env.imgSave output_file with
          | .error e => ([.render smiles 400 400], some e)
          | .ok _ =>
              ([.render smiles 400 400,
                .print ("Molecular structure saved to " ++ output_file)], none)

/-- `save_molecule_image` of src/chem2smiles.py: the body wrapped in
`try ... except Exception as e: print(f"Error generating image: {e}")`.
Second component: the exception it raises to its caller (always `none`). -/
def save_molecule_image (env : Env) (smiles output_file : String) :
    List Event × Option Exc :=
  match save_molecule_image_body env smiles output_file with
  | (evs, none) => (evs, none)
  | (evs, some e) => (evs ++ [.print ("Error generating image: " ++ e)], none)

/-- The parsed command-line arguments: the optional positional `input` and
the `--output`, `--image` and `--batch` options. -/
structure Args where
  input : Option String
  output : Option String
  image : Option String
  batch : Bool

/-- Result of a run of `main`: the file system afterwards, the event trace,
and the exception propagated to the process boundary (`none` = clean
return). -/
structure Outcome where
  fs : Fs
  events : List Event
  exc : Option Exc

/-- The interactive read loop: for each line of stdin, strip, skip blanks,
resolve, and print `name → smiles` or `Could not convert: name`. -/
def interactiveLoop (env : Env) : List String → List Event
  | [] => []
  | line :: rest =>
      let name := pyStrip line
      if name = "" then interactiveLoop env rest
      else
        let r := name_to_smiles env name
        r.2 ++
          (if truthyOpt r.1 then [Event.print (name ++ " → " ++ r.1.getD "")]
           else [Event.print ("Could not convert: " ++ name)]) ++
          interactiveLoop env rest

/-- The `except KeyboardInterrupt: pass` handler around the interactive
loop. -/
def catchKeyboardInterrupt : Option Exc → Option Exc
  | some Exc.keyboardInterrupt => none
  | e => e

/-- The batch accumulation loop over the lines of the input file: strip,
skip blanks, resolve, collect `(name, smiles)` pairs. -/
def processBatch (env : Env) : List String → List (String × Option String) × List Event
  | [] => ([], [])
  | line :: rest =>
      let name := pyStrip line
      if name = "" then processBatch env rest
      else
        let r := name_to_smiles env name
        let tail := processBatch env rest
        ((name, r.1) :: tail.1, r.2 ++ tail.2)

/-- The content the batch output-file loop writes: one
`f.write(f"{name}\t{smiles}\n")` or `f.write(f"{name}\tNOT_FOUND\n")` per
collected result. -/
def batchWriteContent : List (String × Option String) → String
  | [] => ""
  | r :: rest =>
      (if truthyOpt r.2 then r.1 ++ "\t" ++ r.2.getD "" ++ "\n"
       else r.1 ++ "\tNOT_FOUND\n") ++ batchWriteContent rest

/-- The batch stdout loop: one arrow line or `Could not convert` line per
collected result. -/
def batchStdoutEvents : List (String × Option String) → List Event
  | [] => []
  | r :: rest =>
      (if truthyOpt r.2 then Event.print (r.1 ++ " → " ++ r.2.getD "")
       else Event.print ("Could not convert: " ++ r.1)) :: batchStdoutEvents rest

/-- `main` of src/chem2smiles.py after argument parsing.  `stdinLines` are the
lines read from stdin before end-of-stream (interactive mode only) and
`interrupt` says whether a `KeyboardInterrupt` was raised at that point in the
read loop (it is caught by the handler).  Mode selection follows the source:
`if not args.input` (truthiness) chooses interactive mode, then `args.batch`
chooses batch over single mode.  In single mode the `open(args.output, "w")`
is not inside any `try`, so its failure propagates as the outcome's
exception. -/
def main (env : Env) (args : Args) (stdinLines : List String)
    (interrupt : Bool) (fs : Fs) : Outcome :=
  if truthyOpt args.input then
    let input := args.input.getD ""
    if args.batch then
      -- batch mode: everything inside `try ... except Exception`
      match env.readFile input with
      | .error e => { fs := fs, events := [.print ("Error: " ++ e)], exc := none }
      | .ok lines =>
          let pr := processBatch env lines
          if truthyOpt args.output then
            let o := args.output.getD ""
            if env.writable o then
              { fs := writeFile fs o (batchWriteContent pr.1),
                events := pr.2 ++ [.openWrite o, .print ("Results written to " ++ o)],
                exc := none }
            else
              -- the IOError from `open` is caught by the batch handler
              { fs := fs,
                events := pr.2 ++ [.openWrite o, .print ("Error: " ++ env.openErr o)],
                exc := none }
          else
            { fs := fs, events := pr.2 ++ batchStdoutEvents pr.1, exc := none }
    else
      -- single mode: no enclosing try
      let r := name_to_smiles env input
      if truthyOpt r.1 then
        let s := r.1.getD ""
        if truthyOpt args.output then
          let o := args.output.getD ""
          if env.writable o then
            let evs := r.2 ++ [Event.openWrite o, .print ("SMILES written to " ++ o)]
            if truthyOpt args.image then
              { fs := writeFile fs o (s ++ "\n"),
                events := evs ++ (save_molecule_image env s (args.image.getD "")).1,
                exc := none }
            else
              { fs := writeFile fs o (s ++ "\n"), events := evs, exc := none }
          else
            -- uncaught IOError: propagates to the process boundary
            { fs := fs, events := r.2 ++ [.openWrite o],
              exc := some (.err (env.openErr o)) }
        else
          let evs := r.2 ++ [Event.print s]
          if truthyOpt args.image then
            { fs := fs,
              events := evs ++ (save_molecule_image env s (args.image.getD "")).1,
              exc := none }
          else
            { fs := fs, events := evs, exc := none }
      else
        { fs := fs, events := r.2 ++ [.print ("Could not convert: " ++ input)],
          exc := none }
  else
    -- interactive mode
    { fs := fs,
      events := Event.print "Enter chemical names (Ctrl+D or Ctrl+Z to exit):" ::
        interactiveLoop env stdinLines,
      exc := catchKeyboardInterrupt
        (if interrupt then some Exc.keyboardInterrupt else none) }

/-- The Resolver of the specification is the value component of
`name_to_smiles`. -/
def resolver (env : Env) (s : String) : Option String :=
  (name_to_smiles env s).1

/-- Modelled from the spec: the non-blank input lines, stripped, in input
order ("reads one query per non-blank line"). -/
def nonblankNames : List String → List String
  | [] => []
  | l :: rest =>
      let n := pyStrip l
      if n = "" then nonblankNames rest else n :: nonblankNames rest

/-- Modelled from the spec: one batch output-file line per query,
`NAME<TAB>STRUCTURE_OR_SENTINEL\n`, with the sentinel `NOT_FOUND` exactly
when the Resolver returned absent. -/
def batchLineSpec (env : Env) (n : String) : String :=
  match resolver env n with
  | some s => n ++ "\t" ++ s ++ "\n"
  | none => n ++ "\tNOT_FOUND\n"

/-- Modelled from the spec: the whole batch output file, one line per
non-blank input line, in input order. -/
def batchFileSpec (env : Env) : List String → String
  | [] => ""
  | n :: rest => batchLineSpec env n ++ batchFileSpec env rest

/-- Modelled from the spec: the batch stdout line for one query,
`<name> → <structure>` or `Could not convert: <name>`. -/
def stdoutLineSpec (env : Env) (n : String) : Event :=
  match resolver env n with
  | some s => .print (n ++ " → " ++ s)
  | none => .print ("Could not convert: " ++ n)

/-- The empty file system. -/
def fsEmpty : Fs := fun _ => none

/-- A concrete well-behaved environment: `CCO` and `O` are valid notation,
`water` resolves to `O`, every other name has zero candidates, `names.txt`
holds the two queries of the spec's concrete batch scenario, every path is
writable. -/
def envDemo : Env where
  molFromSmiles := fun s => .ok (s == "CCO" || s == "O")
  pubchempyInstalled := true
  getCompounds := fun n => if n == "water" then .ok ["O"] else .ok []
  pipInstall := .ok ()
  installedAfter := true
  importErr := "No module named pubchempy"
  getCompoundsRetry := fun _ => .ok []
  molToImage := fun _ _ _ => .ok ()
  imgSave := fun _ => .ok ()
  readFile := fun p =>
    if p == "names.txt" then .ok ["water", "", "bogusname"]
    else .error ("No such file or directory: " ++ p)
  writable := fun _ => true
  openErr := fun p => "Permission denied: " ++ p

/-- `envDemo` with every output path unwritable. -/
def envNoWrite : Env := { envDemo with writable := fun _ => false }

/-- `envDemo` with the lookup dependency missing at first import, the
remedial install succeeding, and the retried lookup returning zero
candidates; the validator rejects everything. -/
def envNoDep : Env :=
  { envDemo with
    molFromSmiles := fun _ => .ok false
    pubchempyInstalled := false }

/-- Every `lookup` event of the trace comes strictly before every
`openWrite` event. -/
def lookupsPrecedeOpens (evs : List Event) : Prop :=
  ∀ i j (hi : i < evs.length) (hj : j < evs.length),
    isOpenWrite (evs.get ⟨i, hi⟩) = true → isLookup (evs.get ⟨j, hj⟩) = true → j < i

example : name_to_smiles envDemo "CCO" = (some "CCO", []) := by decide

example :
    name_to_smiles envDemo "water" = (some "O", [.lookup "water"]) := by decide

example :
    (main envDemo ⟨some "names.txt", some "out.tsv", none, true⟩ [] false fsEmpty).fs
      "out.tsv" = some "water\tO\nbogusname\tNOT_FOUND\n" := by decide

example :
    (main envNoWrite ⟨some "CCO", some "out.txt", some "img.png", false⟩ [] false
      fsEmpty).exc = some (.err "Permission denied: out.txt") := by decide

theorem truthy_some {s : String} (h : s ≠ "") : truthyOpt (some s) = true := by
  simp [truthyOpt, h]

theorem truthy_getD {x : Option String} (h : truthyOpt x = true) :
    x = some (x.getD "") := by
  cases x with
  | none => simp [truthyOpt] at h
  | some s => rfl

theorem truthy_getD_ne {x : Option String} (h : truthyOpt x = true) :
    x.getD "" ≠ "" := by
  cases x with
  | none => simp [truthyOpt] at h
  | some s =>
      intro hc
      rw [Option.getD_some] at hc
      subst hc
      simp [truthyOpt] at h

theorem countEv_append (p : Event → Bool) (a b : List Event) :
    countEv p (a ++ b) = countEv p a + countEv p b := by
  simp [countEv, List.filter_append]

theorem countEv_eq_zero {p : Event → Bool} {l : List Event}
    (h : ∀ ev ∈ l, p ev = false) : countEv p l = 0 := by
  unfold countEv
  rw [List.length_eq_zero, List.filter_eq_nil_iff]
  intro a ha
  simp [h a ha]

/-- The Resolver's trace holds only prints, lookups and the install: never a
render or a file-open event. -/
theorem name_to_smiles_shape (env : Env) (n : String) :
    ∀ ev ∈ (name_to_smiles env n).2,
      isRender ev = false ∧ isOpenWrite ev = false := by
  have hall : ((name_to_smiles env n).2.all
      fun ev => !isRender ev && !isOpenWrite ev) = true := by
    unfold name_to_smiles
    repeat' split
    all_goals rfl
  intro ev hev
  have h := List.all_eq_true.1 hall ev hev
  simp only [Bool.and_eq_true, Bool.not_eq_true'] at h
  exact h

theorem interactiveLoop_no_render (env : Env) (ls : List String) :
    ∀ ev ∈ interactiveLoop env ls, isRender ev = false := by
  induction ls with
  | nil => intro ev hev; simp [interactiveLoop] at hev
  | cons l rest ih =>
      intro ev hev
      simp only [interactiveLoop] at hev
      by_cases hb : pyStrip l = ""
      · rw [if_pos hb] at hev; exact ih ev hev
      · rw [if_neg hb] at hev
        simp only [List.mem_append] at hev
        rcases hev with (h | h) | h
        · exact (name_to_smiles_shape env (pyStrip l) ev h).1
        · cases htr : truthyOpt (name_to_smiles env (pyStrip l)).1 <;>
            simp [htr] at h <;> subst h <;> rfl
        · exact ih ev h

theorem processBatch_shape (env : Env) (lines : List String) :
    ∀ ev ∈ (processBatch env lines).2,
      isRender ev = false ∧ isOpenWrite ev = false := by
  induction lines with
  | nil => intro ev hev; simp [processBatch] at hev
  | cons l rest ih =>
      intro ev hev
      simp only [processBatch] at hev
      by_cases hb : pyStrip l = ""
      · rw [if_pos hb] at hev; exact ih ev hev
      · rw [if_neg hb] at hev
        simp only [List.mem_append] at hev
        rcases hev with h | h
        · exact name_to_smiles_shape env (pyStrip l) ev h
        · exact ih ev h

theorem batchStdoutEvents_shape (rs : List (String × Option String)) :
    ∀ ev ∈ batchStdoutEvents rs,
      isRender ev = false ∧ isLookup ev = false ∧ isOpenWrite ev = false := by
  induction rs with
  | nil => intro ev hev; simp [batchStdoutEvents] at hev
  | cons r rest ih =>
      intro ev hev
      simp only [batchStdoutEvents] at hev
      rcases List.mem_cons.1 hev with h | h
      · cases htr : truthyOpt r.2 <;> simp [htr] at h <;> subst h <;>
          exact ⟨rfl, rfl, rfl⟩
      · exact ih ev h

/-- Restriction of a non-blank-name property to the tail of the line list. -/
theorem nonblank_tail {env : Env} {l : String} {rest : List String}
    (hgood : ∀ n ∈ nonblankNames (l :: rest), resolver env n ≠ some "") :
    ∀ n ∈ nonblankNames rest, resolver env n ≠ some "" := by
  intro n hn
  by_cases hb : pyStrip l = ""
  · exact hgood n (by simp only [nonblankNames, if_pos hb]; exact hn)
  · exact hgood n
      (by simp only [nonblankNames, if_neg hb]; exact List.mem_cons_of_mem _ hn)

/-- The file content the batch loop writes equals the batch file described by
the spec, provided no resolved value is the empty string (the code tests the
result for truthiness, the spec for presence). -/
theorem batchContent_spec (env : Env) (lines : List String)
    (hgood : ∀ n ∈ nonblankNames lines, resolver env n ≠ some "") :
    batchWriteContent (processBatch env lines).1 =
      batchFileSpec env (nonblankNames lines) := by
  induction lines with
  | nil => rfl
  | cons l rest ih =>
      by_cases hb : pyStrip l = ""
      · simp only [processBatch, nonblankNames, if_pos hb]
        exact ih (nonblank_tail hgood)
      · have hhead : resolver env (pyStrip l) ≠ some "" := by
          apply hgood
          simp only [nonblankNames, if_neg hb]
          exact List.mem_cons_self _ _
        simp only [processBatch, nonblankNames, if_neg hb, batchWriteContent,
          batchFileSpec]
        congr 1
        · unfold batchLineSpec
          rcases hr : resolver env (pyStrip l) with _ | s
          · unfold resolver at hr
            simp [hr, truthyOpt]
          · have hs : s ≠ "" := by
              intro hcon
              exact hhead (by rw [hr, hcon])
            unfold resolver at hr
            simp [hr, truthyOpt, hs]
        · exact ih (nonblank_tail hgood)

/-- The batch stdout lines equal the per-query lines described by the spec,
under the same non-empty-resolution proviso. -/
theorem batchStdout_spec (env : Env) (lines : List String)
    (hgood : ∀ n ∈ nonblankNames lines, resolver env n ≠ some "") :
    batchStdoutEvents (processBatch env lines).1 =
      (nonblankNames lines).map (stdoutLineSpec env) := by
  induction lines with
  | nil => rfl
  | cons l rest ih =>
      by_cases hb : pyStrip l = ""
      · simp only [processBatch, nonblankNames, if_pos hb]
        exact ih (nonblank_tail hgood)
      · have hhead : resolver env (pyStrip l) ≠ some "" := by
          apply hgood
          simp only [nonblankNames, if_neg hb]
          exact List.mem_cons_self _ _
        simp only [processBatch, nonblankNames, if_neg hb, batchStdoutEvents,
          List.map_cons]
        congr 1
        · unfold stdoutLineSpec
          rcases hr : resolver env (pyStrip l) with _ | s
          · unfold resolver at hr
            simp [hr, truthyOpt]
          · have hs : s ≠ "" := by
              intro hcon
              exact hhead (by rw [hr, hcon])
            unfold resolver at hr
            simp [hr, truthyOpt, hs]
        · exact ih (nonblank_tail hgood)

/-- With valid notation, `save_molecule_image` makes exactly one render call,
at size 400×400, on that notation. -/
theorem save_render_count (env : Env) (s p : String)
    (hv : env.molFromSmiles s = .ok true) :
    countEv isRender (save_molecule_image env s p).1 = 1 ∧
    Event.render s 400 400 ∈ (save_molecule_image env s p).1 := by
  unfold save_molecule_image save_molecule_image_body
  rw [hv]
  rcases env.molToImage s 400 400 with e | u
  · exact ⟨rfl, by simp⟩
  · rcases env.imgSave p with e | u
    · exact ⟨rfl, by simp⟩
    · exact ⟨rfl, by simp⟩

/-- The "No compounds found" print is a "not found"-class diagnostic for any
query string. -/
theorem isNotFoundDiag_print (s : String) :
    isNotFoundDiag
      (.print ("No compounds found for \x27" ++ s ++ "\x27 in PubChem")) = true := by
  simp only [isNotFoundDiag]
  rw [List.isPrefixOf_iff_prefix, String.data_append, String.data_append]
  have h : ("No compounds found for \x27").data =
      ("No compounds found").data ++ (" for \x27").data := by decide
  rw [h, List.append_assoc, List.append_assoc]
  exact List.prefix_append _ _

/-- If a trace splits into an open-free part followed by a lookup-free part,
every lookup strictly precedes every file open. -/
theorem lookupsPrecedeOpens_append (a b : List Event)
    (ha : ∀ ev ∈ a, isOpenWrite ev = false)
    (hb : ∀ ev ∈ b, isLookup ev = false) :
    lookupsPrecedeOpens (a ++ b) := by
  intro i j hi hj hoi hlj
  have hia : a.length ≤ i := by
    by_contra hlt
    push_neg at hlt
    have : (a ++ b).get ⟨i, hi⟩ = a.get ⟨i, hlt⟩ := by
      simp only [List.get_eq_getElem]
      exact List.getElem_append_left hlt
    rw [this] at hoi
    have := ha _ (List.get_mem a i hlt)
    rw [this] at hoi
    exact Bool.false_ne_true hoi
  have hja : j < a.length := by
    by_contra hge
    push_neg at hge
    have hmem : (a ++ b).get ⟨j, hj⟩ ∈ b := by
      simp only [List.get_eq_getElem]
      rw [List.getElem_append_right hge]
      exact List.getElem_mem _
    have := hb _ hmem
    rw [this] at hlj
    exact Bool.false_ne_true hlj
  omega

/-- C2: every string the structural-notation validator accepts is returned
unchanged by the Resolver (idempotence on already-valid notation), and the
external lookup service is never queried for it. -/
theorem chem2smiles_C2 (env : Env) (s : String)
    (hv : env.molFromSmiles s = .ok true) :
    resolver env s = some s ∧
    countEv isLookup (name_to_smiles env s).2 = 0 := by
  unfold resolver name_to_smiles
  rw [hv]
  exact ⟨rfl, rfl⟩

theorem chem2smiles_C2_witness :
    envDemo.molFromSmiles "CCO" = .ok true ∧
    resolver envDemo "CCO" = some "CCO" ∧
    countEv isLookup (name_to_smiles envDemo "CCO").2 = 0 :=
  ⟨by decide, (chem2smiles_C2 envDemo "CCO" (by decide)).1,
    (chem2smiles_C2 envDemo "CCO" (by decide)).2⟩

/-- C9: an explicitly supplied empty-string positional argument is treated
exactly like an absent one: the whole run is identical, and it enters
interactive mode (the interactive banner is the first output line). -/
theorem chem2smiles_C9 (env : Env) (o i : Option String) (b : Bool)
    (sl : List String) (intr : Bool) (fs : Fs) :
    main env ⟨some "", o, i, b⟩ sl intr fs = main env ⟨none, o, i, b⟩ sl intr fs ∧
    (main env ⟨some "", o, i, b⟩ sl intr fs).events.head? =
      some (.print "Enter chemical names (Ctrl+D or Ctrl+Z to exit):") :=
  ⟨rfl, rfl⟩

/-- C6: the Renderer never raises to its caller: a notation that fails to
parse and a failing render or save step are each converted to a diagnostic
print, and the function returns normally. -/
theorem chem2smiles_C6 (env : Env) (s p : String) :
    (save_molecule_image env s p).2 = none ∧
    (env.molFromSmiles s = .ok false →
      Event.print "Could not generate molecular structure image"
        ∈ (save_molecule_image env s p).1) ∧
    (∀ e, (save_molecule_image_body env s p).2 = some e →
      Event.print ("Error generating image: " ++ e)
        ∈ (save_molecule_image env s p).1) := by
  refine ⟨?_, ?_, ?_⟩
  · unfold save_molecule_image
    split <;> rfl
  · intro h
    unfold save_molecule_image save_molecule_image_body
    rw [h]
    simp
  · intro e he
    unfold save_molecule_image
    rcases hb : save_molecule_image_body env s p with ⟨evs, exc⟩
    rw [hb] at he
    cases exc with
    | none => simp at he
    | some e2 =>
        simp only [Option.some.injEq] at he
        subst he
        simp

theorem chem2smiles_C6_witness :
    envNoDep.molFromSmiles "Q" = .ok false ∧
    (save_molecule_image envNoDep "Q" "img.png").2 = none ∧
    Event.print "Could not generate molecular structure image"
      ∈ (save_molecule_image envNoDep "Q" "img.png").1 :=
  ⟨by decide, (chem2smiles_C6 envNoDep "Q" "img.png").1,
    (chem2smiles_C6 envNoDep "Q" "img.png").2.1 (by decide)⟩

/-- With the validator rejecting and the dependency missing, the Resolver
takes exactly the remedial-install path. -/
theorem name_to_smiles_remedial (env : Env) (n : String)
    (hv : env.molFromSmiles n = .ok false)
    (hna : env.pubchempyInstalled = false) :
    name_to_smiles env n =
      (match env.pipInstall with
       | .error e =>
           (none,
            [.print "PubChemPy not installed. Installing it with: pip install pubchempy",
             .install, .print ("Failed to install or use PubChemPy: " ++ e)])
       | .ok _ =>
           if env.installedAfter then
             match env.getCompoundsRetry n with
             | .ok (c :: _) =>
                 (some c,
                  [.print "PubChemPy not installed. Installing it with: pip install pubchempy",
                   .install, .lookup n])
             | .ok [] =>
                 (none,
                  [.print "PubChemPy not installed. Installing it with: pip install pubchempy",
                   .install, .lookup n])
             | .error e =>
                 (none,
                  [.print "PubChemPy not installed. Installing it with: pip install pubchempy",
                   .install, .lookup n,
                   .print ("Failed to install or use PubChemPy: " ++ e)])
           else
             (none,
              [.print "PubChemPy not installed. Installing it with: pip install pubchempy",
               .install,
               .print ("Failed to install or use PubChemPy: " ++ env.importErr)])) := by
  unfold name_to_smiles
  rw [hv, hna]
  rfl

/-- C5: when the lookup dependency is unavailable, the Resolver attempts the
remedial install exactly once, retries only the same query and at most once
(exactly once when the install and re-import succeed), returns absent when
the retried query has zero candidates, and converts a failing install or a
failing retried query into a diagnostic instead of raising. -/
theorem chem2smiles_C5 (env : Env) (n : String)
    (hv : env.molFromSmiles n = .ok false)
    (hna : env.pubchempyInstalled = false) :
    countEv isInstall (name_to_smiles env n).2 = 1 ∧
    countEv isLookup (name_to_smiles env n).2 ≤ 1 ∧
    (∀ m, Event.lookup m ∈ (name_to_smiles env n).2 → m = n) ∧
    (env.pipInstall = .ok () → env.installedAfter = true →
      countEv isLookup (name_to_smiles env n).2 = 1) ∧
    (env.installedAfter = true → env.getCompoundsRetry n = .ok [] →
      resolver env n = none) ∧
    (∀ e, env.pipInstall = .error e →
      resolver env n = none ∧
      Event.print ("Failed to install or use PubChemPy: " ++ e)
        ∈ (name_to_smiles env n).2) ∧
    (∀ e, env.pipInstall = .ok () → env.installedAfter = true →
      env.getCompoundsRetry n = .error e →
      resolver env n = none ∧
      Event.print ("Failed to install or use PubChemPy: " ++ e)
        ∈ (name_to_smiles env n).2) := by
  have hch := name_to_smiles_remedial env n hv hna
  rcases hpi : env.pipInstall with e | u
  · rw [hpi] at hch
    have hch2 : name_to_smiles env n =
        (none,
         [.print "PubChemPy not installed. Installing it with: pip install pubchempy",
          .install, .print ("Failed to install or use PubChemPy: " ++ e)]) := hch
    refine ⟨by rw [hch2]; rfl, by rw [hch2]; exact Nat.zero_le 1, ?_, ?_, ?_, ?_, ?_⟩
    · intro m hm
      simp [hch2, isLookup] at hm
    · intro h _
      simp at h
    · intro _ _
      simp [resolver, hch2]
    · intro e2 he2
      simp only [Except.error.injEq] at he2
      subst he2
      exact ⟨by simp [resolver, hch2], by simp [hch2]⟩
    · intro e2 h _ _
      simp at h
  · rw [hpi] at hch
    cases u
    cases hia : env.installedAfter with
    | false =>
        rw [hia] at hch
        have hch2 : name_to_smiles env n =
            (none,
             [.print "PubChemPy not installed. Installing it with: pip install pubchempy",
              .install,
              .print ("Failed to install or use PubChemPy: " ++ env.importErr)]) := hch
        refine ⟨by rw [hch2]; rfl, by rw [hch2]; exact Nat.zero_le 1, ?_, ?_, ?_, ?_, ?_⟩
        · intro m hm
          simp [hch2, isLookup] at hm
        · intro _ h
          simp at h
        · intro h _
          simp at h
        · intro e2 he2
          simp at he2
        · intro e2 _ h _
          simp at h
    | true =>
        rw [hia, if_pos rfl] at hch
        rcases hgr : env.getCompoundsRetry n with e | l
        · rw [hgr] at hch
          have hch2 : name_to_smiles env n =
              (none,
               [.print "PubChemPy not installed. Installing it with: pip install pubchempy",
                .install, .lookup n,
                .print ("Failed to install or use PubChemPy: " ++ e)]) := hch
          refine ⟨by rw [hch2]; rfl, by rw [hch2]; exact Nat.le.refl, ?_, ?_, ?_, ?_, ?_⟩
          · intro m hm
            simp [hch2, isLookup] at hm
            exact hm
          · intro _ _
            rw [hch2]
            rfl
          · intro _ h
            simp at h
          · intro e2 he2
            simp at he2
          · intro e2 _ _ he2
            simp only [Except.error.injEq] at he2
            subst he2
            exact ⟨by simp [resolver, hch2], by simp [hch2]⟩
        · rw [hgr] at hch
          cases l with
          | nil =>
              have hch2 : name_to_smiles env n =
                  (none,
                   [.print "PubChemPy not installed. Installing it with: pip install pubchempy",
                    .install, .lookup n]) := hch
              refine ⟨by rw [hch2]; rfl, by rw [hch2]; exact Nat.le.refl,
                ?_, ?_, ?_, ?_, ?_⟩
              · intro m hm
                simp [hch2, isLookup] at hm
                exact hm
              · intro _ _
                rw [hch2]
                rfl
              · intro _ _
                simp [resolver, hch2]
              · intro e2 he2
                simp at he2
              · intro e2 _ _ he2
                simp at he2
          | cons c cs =>
              have hch2 : name_to_smiles env n =
                  (some c,
                   [.print "PubChemPy not installed. Installing it with: pip install pubchempy",
                    .install, .lookup n]) := hch
              refine ⟨by rw [hch2]; rfl, by rw [hch2]; exact Nat.le.refl,
                ?_, ?_, ?_, ?_, ?_⟩
              · intro m hm
                simp [hch2, isLookup] at hm
                exact hm
              · intro _ _
                rw [hch2]
                rfl
              · intro _ h
                simp at h
              · intro e2 he2
                simp at he2
              · intro e2 _ _ he2
                simp at he2

theorem chem2smiles_C5_witness :
    envNoDep.molFromSmiles "aspirin" = .ok false ∧
    envNoDep.pubchempyInstalled = false ∧
    countEv isInstall (name_to_smiles envNoDep "aspirin").2 = 1 ∧
    countEv isLookup (name_to_smiles envNoDep "aspirin").2 ≤ 1 :=
  ⟨by decide, by decide,
    (chem2smiles_C5 envNoDep "aspirin" (by decide) (by decide)).1,
    (chem2smiles_C5 envNoDep "aspirin" (by decide) (by decide)).2.1⟩

/-- A falsy positional input (absent or empty) selects interactive mode. -/
theorem main_interactive (env : Env) (inp2 out img : Option String) (b : Bool)
    (sl : List String) (intr : Bool) (fs : Fs) (h : truthyOpt inp2 = false) :
    main env ⟨inp2, out, img, b⟩ sl intr fs =
      { fs := fs,
        events := .print "Enter chemical names (Ctrl+D or Ctrl+Z to exit):" ::
          interactiveLoop env sl,
        exc := none } := by
  unfold main
  rw [h]
  cases intr <;> rfl

/-- A truthy input with the batch flag selects batch mode. -/
theorem main_batch_chr (env : Env) (inp : String) (out img : Option String)
    (sl : List String) (intr : Bool) (fs : Fs) (hin : inp ≠ "") :
    main env ⟨some inp, out, img, true⟩ sl intr fs =
      (match env.readFile inp with
       | .error e => { fs := fs, events := [.print ("Error: " ++ e)], exc := none }
       | .ok lines =>
           if truthyOpt out then
             if env.writable (out.getD "") then
               { fs := writeFile fs (out.getD "")
                   (batchWriteContent (processBatch env lines).1),
                 events := (processBatch env lines).2 ++
                   [.openWrite (out.getD ""),
                    .print ("Results written to " ++ out.getD "")],
                 exc := none }
             else
               { fs := fs,
                 events := (processBatch env lines).2 ++
                   [.openWrite (out.getD ""),
                    .print ("Error: " ++ env.openErr (out.getD ""))],
                 exc := none }
           else
             { fs := fs,
               events := (processBatch env lines).2 ++
                 batchStdoutEvents (processBatch env lines).1,
               exc := none }) := by
  unfold main
  rw [truthy_some hin]
  rfl

/-- A truthy input without the batch flag selects single mode. -/
theorem main_single_chr (env : Env) (inp : String) (out img : Option String)
    (sl : List String) (intr : Bool) (fs : Fs) (hin : inp ≠ "") :
    main env ⟨some inp, out, img, false⟩ sl intr fs =
      (if truthyOpt (name_to_smiles env inp).1 then
         if truthyOpt out then
           if env.writable (out.getD "") then
             if truthyOpt img then
               { fs := writeFile fs (out.getD "")
                   ((name_to_smiles env inp).1.getD "" ++ "\n"),
                 events := ((name_to_smiles env inp).2 ++
                   [Event.openWrite (out.getD ""),
                    .print ("SMILES written to " ++ out.getD "")]) ++
                   (save_molecule_image env ((name_to_smiles env inp).1.getD "")
                     (img.getD "")).1,
                 exc := none }
             else
               { fs := writeFile fs (out.getD "")
                   ((name_to_smiles env inp).1.getD "" ++ "\n"),
                 events := (name_to_smiles env inp).2 ++
                   [Event.openWrite (out.getD ""),
                    .print ("SMILES written to " ++ out.getD "")],
                 exc := none }
           else
             { fs := fs,
               events := (name_to_smiles env inp).2 ++
                 [Event.openWrite (out.getD "")],
               exc := some (.err (env.openErr (out.getD ""))) }
         else
           if truthyOpt img then
             { fs := fs,
               events := ((name_to_smiles env inp).2 ++
                 [Event.print ((name_to_smiles env inp).1.getD "")]) ++
                 (save_molecule_image env ((name_to_smiles env inp).1.getD "")
                   (img.getD "")).1,
               exc := none }
           else
             { fs := fs,
               events := (name_to_smiles env inp).2 ++
                 [Event.print ((name_to_smiles env inp).1.getD "")],
               exc := none }
       else
         { fs := fs,
           events := (name_to_smiles env inp).2 ++
             [.print ("Could not convert: " ++ inp)],
           exc := none }) := by
  unfold main
  rw [truthy_some hin]
  rfl

/-- Outside of single mode with an image path, the run makes no render
call. -/
theorem main_render_free (env : Env) (args : Args) (sl : List String)
    (intr : Bool) (fs : Fs)
    (h : args.image = none ∨ args.batch = true ∨ truthyOpt args.input = false) :
    countEv isRender (main env args sl intr fs).events = 0 := by
  obtain ⟨inp2, out2, img2, b⟩ := args
  have hinter : ∀ i2, truthyOpt i2 = false →
      countEv isRender (main env ⟨i2, out2, img2, b⟩ sl intr fs).events = 0 := by
    intro i2 hi2
    rw [main_interactive env i2 out2 img2 b sl intr fs hi2]
    apply countEv_eq_zero
    intro ev hev
    rcases List.mem_cons.1 hev with h1 | h1
    · subst h1; rfl
    · exact interactiveLoop_no_render env sl ev h1
  have hbatch : ∀ inp3 : String, inp3 ≠ "" →
      countEv isRender
        (main env ⟨some inp3, out2, img2, true⟩ sl intr fs).events = 0 := by
    intro inp3 hinp3
    rw [main_batch_chr env inp3 out2 img2 sl intr fs hinp3]
    rcases hrf : env.readFile inp3 with e | lines
    · rfl
    · have hz : countEv isRender (processBatch env lines).2 = 0 :=
        countEv_eq_zero (fun ev hev => (processBatch_shape env lines ev hev).1)
      cases hto : truthyOpt out2 with
      | false =>
          show countEv isRender ((processBatch env lines).2 ++
            batchStdoutEvents (processBatch env lines).1) = 0
          rw [countEv_append, hz,
            countEv_eq_zero (fun ev hev => (batchStdoutEvents_shape _ ev hev).1)]
      | true =>
          cases hwr : env.writable (out2.getD "") with
          | false =>
              show countEv isRender ((processBatch env lines).2 ++
                [Event.openWrite (out2.getD ""),
                 Event.print ("Error: " ++ env.openErr (out2.getD ""))]) = 0
              rw [countEv_append, hz]
              rfl
          | true =>
              show countEv isRender ((processBatch env lines).2 ++
                [Event.openWrite (out2.getD ""),
                 Event.print ("Results written to " ++ out2.getD "")]) = 0
              rw [countEv_append, hz]
              rfl
  cases b with
  | true =>
      rcases inp2 with _ | s
      · exact hinter none rfl
      · by_cases hs : s = ""
        · subst hs; exact hinter (some "") rfl
        · exact hbatch s hs
  | false =>
      rcases inp2 with _ | s
      · exact hinter none rfl
      · by_cases hs : s = ""
        · subst hs; exact hinter (some "") rfl
        · have himg : img2 = none := by
            rcases h with h | h | h
            · exact h
            · simp at h
            · rw [truthy_some hs] at h
              simp at h
          subst himg
          rw [main_single_chr env s out2 none sl intr fs hs]
          have hz : countEv isRender (name_to_smiles env s).2 = 0 :=
            countEv_eq_zero (fun ev hev => (name_to_smiles_shape env s ev hev).1)
          cases htr : truthyOpt (name_to_smiles env s).1 with
          | false =>
              show countEv isRender ((name_to_smiles env s).2 ++
                [Event.print ("Could not convert: " ++ s)]) = 0
              rw [countEv_append, hz]
              rfl
          | true =>
              cases hto : truthyOpt out2 with
              | false =>
                  show countEv isRender ((name_to_smiles env s).2 ++
                    [Event.print ((name_to_smiles env s).1.getD "")]) = 0
                  rw [countEv_append, hz]
                  rfl
              | true =>
                  cases hwr : env.writable (out2.getD "") with
                  | false =>
                      show countEv isRender ((name_to_smiles env s).2 ++
                        [Event.openWrite (out2.getD "")]) = 0
                      rw [countEv_append, hz]
                      rfl
                  | true =>
                      show countEv isRender ((name_to_smiles env s).2 ++
                        [Event.openWrite (out2.getD ""),
                         Event.print ("SMILES written to " ++ out2.getD "")]) = 0
                      rw [countEv_append, hz]
                      rfl

/-- C3 (amended): interactive mode and batch mode never let an exception
reach the process boundary — the keyboard interrupt in interactive mode is
caught as normal termination, and every batch-mode failure, including a
failing input-file read and an unwritable output path, is caught and
converted to an `Error: ...` diagnostic line; parse, lookup and render
failures are caught where they occur and converted to their diagnostic
lines, and a failed single-mode resolution is reported with the clean
`Could not convert` line.  The amendment is confined to single mode: there
the `open(args.output, "w")` is outside every handler, so single mode is
exception-free provided a supplied (truthy) output path is writable — see
the counterexample. -/
theorem chem2smiles_C3_amended (env : Env) (args : Args) (sl : List String)
    (intr : Bool) (fs : Fs) :
    (truthyOpt args.input = false → (main env args sl intr fs).exc = none) ∧
    (args.batch = true → (main env args sl intr fs).exc = none) ∧
    ((∀ o, args.output = some o → o ≠ "" → env.writable o = true) →
      (main env args sl intr fs).exc = none) ∧
    (∀ inp e, args.input = some inp → inp ≠ "" → args.batch = true →
      env.readFile inp = .error e →
      (main env args sl intr fs).exc = none ∧
      Event.print ("Error: " ++ e) ∈ (main env args sl intr fs).events) ∧
    (∀ inp o lines, args.input = some inp → inp ≠ "" → args.batch = true →
      args.output = some o → o ≠ "" → env.readFile inp = .ok lines →
      env.writable o = false →
      (main env args sl intr fs).exc = none ∧
      Event.print ("Error: " ++ env.openErr o)
        ∈ (main env args sl intr fs).events) ∧
    (∀ n e, env.molFromSmiles n = .error e →
      (name_to_smiles env n).1 = none ∧
      Event.print ("Error processing " ++ n ++ ": " ++ e)
        ∈ (name_to_smiles env n).2) ∧
    (∀ n e, env.molFromSmiles n = .ok false → env.pubchempyInstalled = true →
      env.getCompounds n = .error e →
      (name_to_smiles env n).1 = none ∧
      Event.print ("PubChem lookup failed: " ++ e)
        ∈ (name_to_smiles env n).2) ∧
    (∀ s p e, (save_molecule_image_body env s p).2 = some e →
      (save_molecule_image env s p).2 = none ∧
      Event.print ("Error generating image: " ++ e)
        ∈ (save_molecule_image env s p).1) ∧
    (∀ inp, args.input = some inp → inp ≠ "" → args.batch = false →
      (name_to_smiles env inp).1 = none →
      Event.print ("Could not convert: " ++ inp)
        ∈ (main env args sl intr fs).events) := by
  obtain ⟨inp2, out2, img2, b⟩ := args
  have hinter : ∀ i2 b2, truthyOpt i2 = false →
      (main env ⟨i2, out2, img2, b2⟩ sl intr fs).exc = none := by
    intro i2 b2 hi2
    rw [main_interactive env i2 out2 img2 b2 sl intr fs hi2]
  have hbexc : ∀ s2 : String, s2 ≠ "" →
      (main env ⟨some s2, out2, img2, true⟩ sl intr fs).exc = none := by
    intro s2 hs2
    rw [main_batch_chr env s2 out2 img2 sl intr fs hs2]
    rcases hrf : env.readFile s2 with e | lines
    · rfl
    · cases hto : truthyOpt out2 with
      | false => rfl
      | true =>
          cases hwr : env.writable (out2.getD "") with
          | false => rfl
          | true => rfl
  refine ⟨?_, ?_, ?_, ?_, ?_, ?_, ?_, ?_, ?_⟩
  · exact fun h => hinter inp2 b h
  · intro hb
    subst hb
    rcases inp2 with _ | s
    · exact hinter none true rfl
    · by_cases hs : s = ""
      · subst hs
        exact hinter (some "") true rfl
      · exact hbexc s hs
  · intro hw
    rcases inp2 with _ | s
    · exact hinter none b rfl
    · by_cases hs : s = ""
      · subst hs
        exact hinter (some "") b rfl
      · cases b with
        | true => exact hbexc s hs
        | false =>
            rw [main_single_chr env s out2 img2 sl intr fs hs]
            cases htr : truthyOpt (name_to_smiles env s).1 with
            | false => rfl
            | true =>
                cases hto : truthyOpt out2 with
                | false =>
                    cases hti : truthyOpt img2 with
                    | false => rfl
                    | true => rfl
                | true =>
                    have hwr : env.writable (out2.getD "") = true :=
                      hw _ (truthy_getD hto) (truthy_getD_ne hto)
                    cases hwrc : env.writable (out2.getD "") with
                    | false =>
                        rw [hwrc] at hwr
                        exact absurd hwr (by simp)
                    | true =>
                        cases hti : truthyOpt img2 with
                        | false => rfl
                        | true => rfl
  · intro inp e hinp hne hb hrf
    subst hb
    subst hinp
    rw [main_batch_chr env inp out2 img2 sl intr fs hne, hrf]
    exact ⟨rfl, by simp⟩
  · intro inp o lines hinp hne hb hout ho hrf hwr
    subst hb
    subst hinp
    subst hout
    rw [main_batch_chr env inp (some o) img2 sl intr fs hne, hrf]
    have tgd : (some o).getD "" = o := rfl
    rw [truthy_some ho, tgd, hwr]
    refine ⟨rfl, ?_⟩
    show Event.print ("Error: " ++ env.openErr o) ∈
      (processBatch env lines).2 ++
        [Event.openWrite o, Event.print ("Error: " ++ env.openErr o)]
    simp
  · intro n e he
    have hch : name_to_smiles env n =
        (none, [.print ("Error processing " ++ n ++ ": " ++ e)]) := by
      unfold name_to_smiles
      rw [he]
    refine ⟨by simp [hch], ?_⟩
    rw [hch]
    simp
  · intro n e hv hpi hg
    have hch : name_to_smiles env n =
        (none, [.lookup n, .print ("PubChem lookup failed: " ++ e)]) := by
      unfold name_to_smiles
      rw [hv, hpi, hg]
      rfl
    refine ⟨by simp [hch], ?_⟩
    rw [hch]
    simp
  · intro s p e he
    unfold save_molecule_image
    rcases hb2 : save_molecule_image_body env s p with ⟨evs, exc⟩
    rw [hb2] at he
    cases exc with
    | none => simp at he
    | some e2 =>
        simp only [Option.some.injEq] at he
        subst he
        exact ⟨rfl, by simp⟩
  · intro inp hinp hne hb hres
    subst hb
    subst hinp
    rw [main_single_chr env inp out2 img2 sl intr fs hne]
    have htr : truthyOpt (name_to_smiles env inp).1 = false := by
      rw [hres]
      rfl
    rw [htr]
    show Event.print ("Could not convert: " ++ inp) ∈
      (name_to_smiles env inp).2 ++
        [Event.print ("Could not convert: " ++ inp)]
    simp

theorem chem2smiles_C3_witness :
    (main envDemo ⟨some "missing.txt", some "out.tsv", none, true⟩ [] false
      fsEmpty).exc = none ∧
    Event.print ("Error: " ++ ("No such file or directory: " ++ "missing.txt"))
      ∈ (main envDemo ⟨some "missing.txt", some "out.tsv", none, true⟩ [] false
        fsEmpty).events :=
  (chem2smiles_C3_amended envDemo
    ⟨some "missing.txt", some "out.tsv", none, true⟩ [] false fsEmpty).2.2.2.1
    "missing.txt" ("No such file or directory: " ++ "missing.txt") rfl
    (by decide) rfl (by decide)

/-- C3 counterexample: in single mode with a resolvable input and an
unwritable output path, the IOError from `open` propagates to the process
boundary, so the claim as stated fails. -/
theorem chem2smiles_C3_counterexample :
    (main envNoWrite ⟨some "CCO", some "out.txt", none, false⟩ [] false
      fsEmpty).exc = some (Exc.err "Permission denied: out.txt") := by
  decide

/-- C4 (amended): when the lookup dependency imports successfully, a query
the validator rejects and for which the service returns zero candidates
yields absent together with the "No compounds found" diagnostic.  The
amendment is forced by the remedial-install path, where zero candidates on
the retried query yield absent with no "not found"-class diagnostic — see
the counterexample. -/
theorem chem2smiles_C4_amended (env : Env) (s : String)
    (h1 : env.molFromSmiles s = .ok false)
    (h2 : env.pubchempyInstalled = true)
    (h3 : env.getCompounds s = .ok []) :
    resolver env s = none ∧
    Event.print ("No compounds found for \x27" ++ s ++ "\x27 in PubChem")
      ∈ (name_to_smiles env s).2 ∧
    ∃ ev ∈ (name_to_smiles env s).2, isNotFoundDiag ev = true := by
  have hch : name_to_smiles env s =
      (none, [.lookup s,
        .print ("No compounds found for \x27" ++ s ++ "\x27 in PubChem")]) := by
    unfold name_to_smiles
    rw [h1, h2, h3]
    rfl
  refine ⟨by simp [resolver, hch], by simp [hch], ?_⟩
  exact ⟨.print ("No compounds found for \x27" ++ s ++ "\x27 in PubChem"),
    by simp [hch], isNotFoundDiag_print s⟩

theorem chem2smiles_C4_witness :
    envDemo.molFromSmiles "bogusname" = .ok false ∧
    envDemo.getCompounds "bogusname" = .ok [] ∧
    resolver envDemo "bogusname" = none ∧
    Event.print ("No compounds found for \x27bogusname\x27 in PubChem")
      ∈ (name_to_smiles envDemo "bogusname").2 :=
  ⟨by decide, by decide,
    (chem2smiles_C4_amended envDemo "bogusname" (by decide) (by decide)
      (by decide)).1,
    (chem2smiles_C4_amended envDemo "bogusname" (by decide) (by decide)
      (by decide)).2.1⟩

/-- C4 counterexample: when the dependency import fails, the install
succeeds and the retried lookup returns zero candidates, the Resolver
returns absent but emits no "not found"-class diagnostic: the claim as
stated fails on `envNoDep` with the query `bogusname`. -/
theorem chem2smiles_C4_counterexample :
    envNoDep.molFromSmiles "bogusname" = .ok false ∧
    envNoDep.getCompoundsRetry "bogusname" = .ok [] ∧
    resolver envNoDep "bogusname" = none ∧
    ∀ ev ∈ (name_to_smiles envNoDep "bogusname").2,
      isNotFoundDiag ev = false := by
  decide

/-- C1: in batch mode the output file holds exactly one
`NAME<TAB>STRUCTURE_OR_SENTINEL` line (newline-terminated) per non-blank
input line, in input order, with `NOT_FOUND` exactly where the Resolver
returned absent; without an output path the trailing stdout lines are the
per-query lines, one per non-blank input line, in order.  The proviso that
no resolved value is the empty string is needed because the code tests the
result for truthiness rather than presence. -/
theorem chem2smiles_C1 (env : Env) (inp o : String) (img : Option String)
    (lines sl : List String) (intr : Bool) (fs : Fs)
    (hin : inp ≠ "") (ho : o ≠ "")
    (hread : env.readFile inp = .ok lines)
    (hw : env.writable o = true)
    (hgood : ∀ n ∈ nonblankNames lines, resolver env n ≠ some "") :
    (main env ⟨some inp, some o, img, true⟩ sl intr fs).fs o =
      some (batchFileSpec env (nonblankNames lines)) ∧
    (main env ⟨some inp, none, img, true⟩ sl intr fs).events =
      (processBatch env lines).2 ++
        (nonblankNames lines).map (stdoutLineSpec env) := by
  constructor
  · rw [main_batch_chr env inp (some o) img sl intr fs hin, hread]
    have tgd : (some o).getD "" = o := rfl
    rw [truthy_some ho, tgd, hw]
    show writeFile fs o (batchWriteContent (processBatch env lines).1) o =
      some (batchFileSpec env (nonblankNames lines))
    rw [batchContent_spec env lines hgood]
    simp [writeFile]
  · rw [main_batch_chr env inp none img sl intr fs hin, hread]
    show (processBatch env lines).2 ++
        batchStdoutEvents (processBatch env lines).1 =
      (processBatch env lines).2 ++
        (nonblankNames lines).map (stdoutLineSpec env)
    rw [batchStdout_spec env lines hgood]

theorem chem2smiles_C1_witness :
    envDemo.readFile "names.txt" = .ok ["water", "", "bogusname"] ∧
    (∀ n ∈ nonblankNames ["water", "", "bogusname"],
      resolver envDemo n ≠ some "") ∧
    (main envDemo ⟨some "names.txt", some "out.tsv", none, true⟩ [] false
        fsEmpty).fs "out.tsv" =
      some (batchFileSpec envDemo (nonblankNames ["water", "", "bogusname"])) :=
  ⟨by decide, by decide,
    (chem2smiles_C1 envDemo "names.txt" "out.tsv" none
      ["water", "", "bogusname"] [] false fsEmpty (by decide) (by decide)
      (by decide) (by decide) (by decide)).1⟩

/-- C8: in single mode with a writable output path, a successful (truthy)
resolution leaves the output file holding exactly the resolved structure
followed by one newline, whatever the file held before; in batch mode the
output file likewise holds exactly the freshly computed records, whatever it
held before (truncate-on-open overwrite semantics). -/
theorem chem2smiles_C8 (env : Env) (inp o : String)
    (hin : inp ≠ "") (ho : o ≠ "") (hw : env.writable o = true) :
    (∀ r img sl intr fs, resolver env inp = some r → r ≠ "" →
      (main env ⟨some inp, some o, img, false⟩ sl intr fs).fs o =
        some (r ++ "\n")) ∧
    (∀ lines img sl intr fs, env.readFile inp = .ok lines →
      (main env ⟨some inp, some o, img, true⟩ sl intr fs).fs o =
        some (batchWriteContent (processBatch env lines).1)) := by
  constructor
  · intro r img sl intr fs hr hrne
    rw [main_single_chr env inp (some o) img sl intr fs hin]
    have htr : truthyOpt (name_to_smiles env inp).1 = true := by
      unfold resolver at hr
      rw [hr]
      exact truthy_some hrne
    have tgd : (some o).getD "" = o := rfl
    rw [htr, truthy_some ho, tgd, hw]
    have hgd : (name_to_smiles env inp).1.getD "" = r := by
      unfold resolver at hr
      rw [hr]
      rfl
    cases hti : truthyOpt img with
    | false =>
        show writeFile fs o ((name_to_smiles env inp).1.getD "" ++ "\n") o =
          some (r ++ "\n")
        rw [hgd]
        simp [writeFile]
    | true =>
        show writeFile fs o ((name_to_smiles env inp).1.getD "" ++ "\n") o =
          some (r ++ "\n")
        rw [hgd]
        simp [writeFile]
  · intro lines img sl intr fs hread
    rw [main_batch_chr env inp (some o) img sl intr fs hin, hread]
    have tgd : (some o).getD "" = o := rfl
    rw [truthy_some ho, tgd, hw]
    show writeFile fs o (batchWriteContent (processBatch env lines).1) o =
      some (batchWriteContent (processBatch env lines).1)
    simp [writeFile]

theorem chem2smiles_C8_witness :
    resolver envDemo "water" = some "O" ∧
    (main envDemo ⟨some "water", some "out.txt", none, false⟩ [] false
      fsEmpty).fs "out.txt" = some ("O" ++ "\n") :=
  ⟨by decide,
    (chem2smiles_C8 envDemo "water" "out.txt" (by decide) (by decide)
      (by decide)).1 "O" none [] false fsEmpty (by decide) (by decide)⟩

/-- C10: in batch mode with an output path, if reading the input file
raises then the file system is untouched and no file is opened for writing;
and on a successful read every lookup strictly precedes the opening of the
output file in the event order (the output file is opened only after all
queries are resolved). -/
theorem chem2smiles_C10 (env : Env) (inp o : String) (img : Option String)
    (sl : List String) (intr : Bool)
    (hin : inp ≠ "") (ho : o ≠ "") :
    (∀ e fs, env.readFile inp = .error e →
      (main env ⟨some inp, some o, img, true⟩ sl intr fs).fs = fs ∧
      ∀ ev ∈ (main env ⟨some inp, some o, img, true⟩ sl intr fs).events,
        isOpenWrite ev = false) ∧
    (∀ lines fs, env.readFile inp = .ok lines →
      lookupsPrecedeOpens
        (main env ⟨some inp, some o, img, true⟩ sl intr fs).events) := by
  constructor
  · intro e fs hrf
    rw [main_batch_chr env inp (some o) img sl intr fs hin, hrf]
    refine ⟨rfl, ?_⟩
    intro ev hev
    simp at hev
    subst hev
    rfl
  · intro lines fs hrf
    rw [main_batch_chr env inp (some o) img sl intr fs hin, hrf]
    have tgd : (some o).getD "" = o := rfl
    rw [truthy_some ho, tgd]
    have hpb : ∀ ev ∈ (processBatch env lines).2, isOpenWrite ev = false :=
      fun ev hev => (processBatch_shape env lines ev hev).2
    cases hwr : env.writable o with
    | true =>
        show lookupsPrecedeOpens ((processBatch env lines).2 ++
          [Event.openWrite o, Event.print ("Results written to " ++ o)])
        refine lookupsPrecedeOpens_append _ _ hpb ?_
        intro ev hev
        simp at hev
        rcases hev with h | h <;> subst h <;> rfl
    | false =>
        show lookupsPrecedeOpens ((processBatch env lines).2 ++
          [Event.openWrite o, Event.print ("Error: " ++ env.openErr o)])
        refine lookupsPrecedeOpens_append _ _ hpb ?_
        intro ev hev
        simp at hev
        rcases hev with h | h <;> subst h <;> rfl

theorem chem2smiles_C10_witness :
    envDemo.readFile "missing.txt" =
      .error ("No such file or directory: " ++ "missing.txt") ∧
    (main envDemo ⟨some "missing.txt", some "out.tsv", none, true⟩ [] false
      fsEmpty).fs = fsEmpty ∧
    ∀ ev ∈ (main envDemo ⟨some "missing.txt", some "out.tsv", none, true⟩ []
      false fsEmpty).events, isOpenWrite ev = false := by
  refine ⟨by decide, ?_, ?_⟩
  · exact ((chem2smiles_C10 envDemo "missing.txt" "out.tsv" none [] false
      (by decide) (by decide)).1 ("No such file or directory: " ++ "missing.txt")
      fsEmpty (by decide)).1
  · exact ((chem2smiles_C10 envDemo "missing.txt" "out.tsv" none [] false
      (by decide) (by decide)).1 ("No such file or directory: " ++ "missing.txt")
      fsEmpty (by decide)).2

/-- C7 (amended): in single mode, a validator-accepted input together with
an image path leads to exactly one render call, at size 400×400, on the
resolved notation — provided that, when an output path is also supplied, it
is writable (an unwritable output path aborts the run before the render;
see the counterexample); and no render call happens in batch mode, in
interactive mode, or when no image path is given. -/
theorem chem2smiles_C7_amended (env : Env) (inp ipath : String)
    (out : Option String) (sl : List String) (intr : Bool) (fs : Fs)
    (hin : inp ≠ "") (hip : ipath ≠ "")
    (hv : env.molFromSmiles inp = .ok true)
    (hout : ∀ o, out = some o → env.writable o = true) :
    countEv isRender
      (main env ⟨some inp, out, some ipath, false⟩ sl intr fs).events = 1 ∧
    Event.render inp 400 400
      ∈ (main env ⟨some inp, out, some ipath, false⟩ sl intr fs).events ∧
    (∀ args2 : Args,
      args2.image = none ∨ args2.batch = true ∨ truthyOpt args2.input = false →
      countEv isRender (main env args2 sl intr fs).events = 0) := by
  have hres : name_to_smiles env inp = (some inp, []) := by
    unfold name_to_smiles
    rw [hv]
  have hsave := save_render_count env inp ipath hv
  have htr : truthyOpt (name_to_smiles env inp).1 = true := by
    rw [hres]
    exact truthy_some hin
  have tip : (some ipath).getD "" = ipath := rfl
  have hgd : (name_to_smiles env inp).1.getD "" = inp := by
    rw [hres]
    rfl
  rcases out with _ | o2
  · have hev : (main env ⟨some inp, none, some ipath, false⟩ sl intr
        fs).events =
        ((name_to_smiles env inp).2 ++ [Event.print inp]) ++
          (save_molecule_image env inp ipath).1 := by
      rw [main_single_chr env inp none (some ipath) sl intr fs hin]
      rw [htr, truthy_some hip, tip, hgd]
      rfl
    refine ⟨?_, ?_, fun args2 h2 => main_render_free env args2 sl intr fs h2⟩
    · rw [hev, countEv_append, hsave.1, countEv_append]
      rw [countEv_eq_zero (fun ev hev2 => (name_to_smiles_shape env inp ev hev2).1)]
      rfl
    · rw [hev]
      exact List.mem_append_right _ hsave.2
  · by_cases ho2 : o2 = ""
    · subst ho2
      have hev : (main env ⟨some inp, some "", some ipath, false⟩ sl intr
          fs).events =
          ((name_to_smiles env inp).2 ++ [Event.print inp]) ++
            (save_molecule_image env inp ipath).1 := by
        rw [main_single_chr env inp (some "") (some ipath) sl intr fs hin]
        rw [htr, truthy_some hip, tip, hgd]
        rfl
      refine ⟨?_, ?_, fun args2 h2 => main_render_free env args2 sl intr fs h2⟩
      · rw [hev, countEv_append, hsave.1, countEv_append]
        rw [countEv_eq_zero (fun ev hev2 => (name_to_smiles_shape env inp ev hev2).1)]
        rfl
      · rw [hev]
        exact List.mem_append_right _ hsave.2
    · have hwr : env.writable o2 = true := hout o2 rfl
      have tgd : (some o2).getD "" = o2 := rfl
      have hev : (main env ⟨some inp, some o2, some ipath, false⟩ sl intr
          fs).events =
          ((name_to_smiles env inp).2 ++
            [Event.openWrite o2, Event.print ("SMILES written to " ++ o2)]) ++
            (save_molecule_image env inp ipath).1 := by
        rw [main_single_chr env inp (some o2) (some ipath) sl intr fs hin]
        rw [htr, truthy_some ho2, tgd, hwr, truthy_some hip, tip, hgd]
        rfl
      refine ⟨?_, ?_, fun args2 h2 => main_render_free env args2 sl intr fs h2⟩
      · rw [hev, countEv_append, hsave.1, countEv_append]
        rw [countEv_eq_zero (fun ev hev2 => (name_to_smiles_shape env inp ev hev2).1)]
        rfl
      · rw [hev]
        exact List.mem_append_right _ hsave.2

theorem chem2smiles_C7_witness :
    envDemo.molFromSmiles "CCO" = .ok true ∧
    countEv isRender
      (main envDemo ⟨some "CCO", none, some "img.png", false⟩ [] false
        fsEmpty).events = 1 :=
  ⟨by decide,
    (chem2smiles_C7_amended envDemo "CCO" "img.png" none [] false fsEmpty
      (by decide) (by decide) (by decide)
      (fun o h => Option.noConfusion h)).1⟩

/-- C7 counterexample: in single mode with a validator-accepted input, an
image path and an unwritable output path, the run aborts on the output
write before any render call, so no render is attempted and the claim as
stated fails. -/
theorem chem2smiles_C7_counterexample :
    envNoWrite.molFromSmiles "CCO" = .ok true ∧
    countEv isRender
      (main envNoWrite ⟨some "CCO", some "out.txt", some "img.png", false⟩ []
        false fsEmpty).events = 0 := by
  decide

end Chem2Smiles
